import Mathlib

/-!
Verification of the `pfun` Result / Trampoline core against its source.

The embedding follows `src/pfun/result.py` (the `Result` tagged union with
`Ok` / `Error` variants, their methods `map`, `and_then`, `or_else`,
`__eq__`, `__bool__`, and the `result` exception-to-Result adapter) plus,
where the source file is not in the repository snapshot
(`pfun/monad.py`'s `sequence_`, `pfun/trampoline.pyx`'s `Done`/`Call`/
`AndThen`/`run`), definitions modelled from the specification, each marked
as such in its doc comment.
-/

/-- The `Result` tagged union of `src/pfun/result.py`: `class Ok(Result)`
holding a success value `a : A`, and `class Error(Result)` holding an error
payload `b : B`. -/
inductive Result (A B : Type) : Type where
  | Ok : A → Result A B
  | Error : B → Result A B
deriving Repr, DecidableEq

/-- `Ok.and_then` (result.py line 104: `return f(self.a)`) and
`Error.and_then` (line 160: `return self`).  Python is untyped, so the
continuation may change the success type; the `Error` branch returns the
receiver, i.e. an `Error` with the payload untouched. -/
def Result.and_then : Result A B → (A → Result C B) → Result C B
  | .Ok a, f => f a
  | .Error b, _ => .Error b

/-- `Ok.map` (result.py line 101: `return Ok(f(self.a))`) and `Error.map`
(line 137: `return self`). -/
def Result.map : Result A B → (A → C) → Result C B
  | .Ok a, f => .Ok (f a)
  | .Error b, _ => .Error b

/-- `Ok.or_else` (line 98: `return self.a`) and `Error.or_else`
(line 134: `return default`). -/
def Result.or_else : Result A B → A → A
  | .Ok a, _ => a
  | .Error _, d => d

/-- `Ok.__bool__` (line 124: `return True`) and `Error.__bool__`
(line 157: `return False`). -/
def Result.toBool : Result A B → Bool
  | .Ok _ => true
  | .Error _ => false

/-- Instrumented `and_then` that also reports how many times the
continuation `f` is called in the executed branch: the `Ok` body
(line 104) is the single call `f(self.a)`, the `Error` body (line 160) is
`return self`, which contains no call to `f`. -/
def Result.and_thenCount : Result A B → (A → Result C B) → Result C B × Nat
  | .Ok a, f => (f a, 1)
  | .Error b, _ => ((.Error b), 0)

/-- Instrumented `map` that also reports how many times `f` is called in
the executed branch: the `Ok` body (line 101) calls `f` once, the `Error`
body (line 137) is `return self`, which contains no call to `f`. -/
def Result.mapCount : Result A B → (A → C) → Result C B × Nat
  | .Ok a, f => (.Ok (f a), 1)
  | .Error b, _ => ((.Error b), 0)

/-- C1: the monad laws hold for `Result`: left identity
`Ok(a).and_then(f) = f a`, right identity `m.and_then(Ok) = m`, and
associativity `(m.and_then f).and_then g = m.and_then (fun a => (f a).and_then g)`. -/
theorem result_monad_laws (A B C D : Type) :
    (∀ (a : A) (f : A → Result C B), (Result.Ok a).and_then f = f a) ∧
    (∀ (m : Result A B), m.and_then Result.Ok = m) ∧
    (∀ (m : Result A B) (f : A → Result C B) (g : C → Result D B),
      (m.and_then f).and_then g = m.and_then (fun a => (f a).and_then g)) := by
  refine ⟨fun a f => rfl, fun m => ?_, fun m f g => ?_⟩
  · cases m <;> rfl
  · cases m <;> rfl

/-- C4: `Ok(a).and_then(f) = f a`, while `Error(b).and_then(f)` is
`Error(b)` and the continuation `f` is invoked zero times on the `Error`
branch. -/
theorem and_then_ok_error (A B C : Type) :
    (∀ (a : A) (f : A → Result C B), (Result.Ok a).and_then f = f a) ∧
    (∀ (b : B) (f : A → Result C B),
      (Result.Error b : Result A B).and_then f = .Error b ∧
      (Result.Error b : Result A B).and_thenCount f = (.Error b, 0)) := by
  exact ⟨fun a f => rfl, fun b f => ⟨rfl, rfl⟩⟩

/-- C5: `Ok(a).map(f) = Ok (f a)`, while `Error(b).map(f)` is `Error(b)`
and `f` is invoked zero times on the `Error` branch. -/
theorem map_ok_error (A B C : Type) :
    (∀ (a : A) (f : A → C), (Result.Ok a : Result A B).map f = .Ok (f a)) ∧
    (∀ (b : B) (f : A → C),
      (Result.Error b : Result A B).map f = .Error b ∧
      (Result.Error b : Result A B).mapCount f = (.Error b, 0)) := by
  exact ⟨fun a f => rfl, fun b f => ⟨rfl, rfl⟩⟩

/-- C9: on the `Error` branch both `map` and `and_then` return the receiver
unchanged (`return self` at result.py lines 138 and 161): the output is an
`Error` carrying exactly the receiver's payload, for every function
argument; in the homogeneous case the output is the receiver value itself. -/
theorem error_map_and_then_frame (A B C : Type) :
    (∀ (b : B) (f : A → C), (Result.Error b : Result A B).map f = .Error b) ∧
    (∀ (b : B) (g : A → Result C B),
      (Result.Error b : Result A B).and_then g = .Error b) ∧
    (∀ (r : Result A B) (f : A → A) (g : A → Result A B),
      r.toBool = false → r.map f = r ∧ r.and_then g = r) := by
  refine ⟨fun b f => rfl, fun b g => rfl, fun r f g h => ?_⟩
  cases r with
  | Ok a => simp [Result.toBool] at h
  | Error b => exact ⟨rfl, rfl⟩

/-- Witness for C9's conditional clause at a concrete input. -/
theorem error_map_and_then_frame_witness :
    (Result.Error 7 : Result Nat Nat).toBool = false ∧
    ((Result.Error 7 : Result Nat Nat).map (fun a => a + 1) = .Error 7 ∧
     (Result.Error 7 : Result Nat Nat).and_then (fun a => .Ok (a + 1)) = .Error 7) :=
  ⟨rfl, (error_map_and_then_frame Nat Nat Nat).2.2 (.Error 7)
    (fun a => a + 1) (fun a => .Ok (a + 1)) rfl⟩

/-- Modelled from the spec: `pfun/trampoline.pyx` is not in the source
snapshot (only the build script references it).  Spec section 3: a tagged
union with exactly three variants, `Done(value)`, `Call(thunk: () ->
Trampoline)` and `AndThen(inner, cont)`.  Python is untyped; the
continuation type is taken homogeneous as in the test strategies. -/
inductive Trampoline (A : Type) : Type where
  | Done : A → Trampoline A
  | Call : (Unit → Trampoline A) → Trampoline A
  | AndThen : Trampoline A → (A → Trampoline A) → Trampoline A

/-- Modelled from the spec: the direct (non-trampolined) recursive reading
of a `Trampoline` value, against which `run` is compared: `Done(v)` yields
`v`, `Call(thunk)` yields the result of evaluating `thunk()`, and
`AndThen(inner, cont)` yields the result of evaluating `cont` applied to
the result of `inner`. -/
def Trampoline.eval : Trampoline A → A
  | .Done v => v
  | .Call thunk => (thunk ()).eval
  | .AndThen inner cont => (cont inner.eval).eval

/-- Number of loop iterations the iterative `run` of the spec performs from
a given `Trampoline` value (one per `Done`/`Call`/`AndThen` inspection);
used as the termination measure of `runAux`. -/
def Trampoline.steps : Trampoline A → Nat
  | .Done _ => 1
  | .Call thunk => 1 + (thunk ()).steps
  | .AndThen inner cont => 1 + inner.steps + (cont inner.eval).steps

/-- Value obtained by feeding `v` through a continuation stack, popping
left to right: the reference reading of the spec's continuation-stack
discipline. -/
def stackEval : A → List (A → Trampoline A) → A
  | v, [] => v
  | v, k :: ks => stackEval ((k v).eval) ks

/-- Loop iterations contributed by a continuation stack when started with
value `v`. -/
def stackSteps : A → List (A → Trampoline A) → Nat
  | _, [] => 0
  | v, k :: ks => (k v).steps + stackSteps ((k v).eval) ks

/-- Modelled from the spec: the iterative `run` loop of spec section 4.2,
with its explicit continuation stack.  `Done(v)` with an empty stack
returns `v`; `Done(v)` with a non-empty stack pops the top continuation
`k` and continues from `k v`; `Call(thunk)` continues from `thunk()`;
`AndThen(inner, cont)` pushes `cont` and continues from `inner`.  Each
equation performs one loop iteration; the recursion is tail recursion on
the loop state `(current, stack)`, never a recursive call of `run` on a
sub-Trampoline. -/
def Trampoline.runAux : Trampoline A → List (A → Trampoline A) → A
  | .Done v, [] => v
  | .Done v, k :: ks => runAux (k v) ks
  | .Call thunk, ks => runAux (thunk ()) ks
  | .AndThen inner cont, ks => runAux inner (cont :: ks)
termination_by t ks => t.steps + stackSteps t.eval ks
decreasing_by
  all_goals simp [Trampoline.steps, Trampoline.eval, stackSteps]
  all_goals omega

/-- Modelled from the spec: `run` starts the iterative loop with an empty
continuation stack. -/
def Trampoline.run (t : Trampoline A) : A := t.runAux []

theorem runAux_eq_stackEval (t : Trampoline A) (ks : List (A → Trampoline A)) :
    t.runAux ks = stackEval t.eval ks := by
  induction t, ks using Trampoline.runAux.induct with
  | case1 v => simp [Trampoline.runAux, Trampoline.eval, stackEval]
  | case2 v k ks ih =>
      rw [Trampoline.runAux, ih]
      simp [Trampoline.eval, stackEval]
  | case3 thunk ks ih =>
      rw [Trampoline.runAux, ih]
      simp [Trampoline.eval]
  | case4 inner cont ks ih =>
      rw [Trampoline.runAux, ih]
      simp [Trampoline.eval, stackEval]

/-- C2: the iterative, continuation-stack `run` terminates on every
`Trampoline` value (it is a total function) and agrees with the direct
recursive evaluation `eval`, at every nesting depth. -/
theorem run_eq_eval (A : Type) (t : Trampoline A) : t.run = t.eval := by
  rw [Trampoline.run, runAux_eq_stackEval]
  rfl

/-- Python's raised-exception hierarchy as relevant to result.py line 203
(`except Exception as e`): a raised object is a `BaseException`; it is an
instance of `Exception` only for the `exc` constructor, while
`KeyboardInterrupt` and `SystemExit` derive from `BaseException` directly. -/
inductive BaseExc : Type where
  | exc : String → BaseExc
  | keyboardInterrupt : BaseExc
  | systemExit : Int → BaseExc
deriving Repr, DecidableEq

/-- The `isinstance(e, Exception)` test used implicitly by the
`except Exception` clause at result.py line 203. -/
def BaseExc.isException : BaseExc → Bool
  | .exc _ => true
  | .keyboardInterrupt => false
  | .systemExit _ => false

/-- The `result` adapter of result.py lines 199 to 206.  A fallible Python
call is embedded as `Except BaseExc B` (`.ok` for a normal return, `.error`
for a raised exception).  The body tries `f`; on a normal return it
returns `Ok` of the value, on a raised `Exception` instance it returns
`Error` of the exception, and any other raised `BaseException` escapes the
`except Exception` clause and propagates. -/
def result (f : A → Except BaseExc B) : A → Except BaseExc (Result B BaseExc) :=
  fun a =>
    match f a with
    | .ok b => .ok (.Ok b)
    | .error e => if e.isException then .ok (.Error e) else .error e

/-- C3: `result(f)` returns `Ok (f x)` when `f x` returns normally and
`Error e` when `f x` raises an `Exception` instance `e`, in the latter case
returning normally to the caller rather than re-raising. -/
theorem result_wraps (A B : Type) (f : A → Except BaseExc B) (x : A) :
    (∀ b, f x = .ok b → result f x = .ok (.Ok b)) ∧
    (∀ e, f x = .error e → e.isException = true → result f x = .ok (.Error e)) := by
  constructor
  · intro b h
    simp [result, h]
  · intro e h he
    simp [result, h, he]

/-- Witness for C3 at concrete inputs: a normally returning function and a
function raising a `ValueError`-like `Exception` instance. -/
theorem result_wraps_witness :
    ((fun n : Nat => (Except.ok n : Except BaseExc Nat)) 3 = .ok 3 ∧
      result (fun n : Nat => (.ok n : Except BaseExc Nat)) 3 = .ok (.Ok 3)) ∧
    ((fun _ : Nat => (Except.error (BaseExc.exc "boom") : Except BaseExc Nat)) 3
        = .error (.exc "boom") ∧
      (BaseExc.exc "boom").isException = true ∧
      result (fun _ : Nat => (.error (.exc "boom") : Except BaseExc Nat)) 3
        = .ok (.Error (.exc "boom"))) :=
  ⟨⟨rfl, (result_wraps Nat Nat (fun n => .ok n) 3).1 3 rfl⟩,
   ⟨rfl, rfl,
    (result_wraps Nat Nat (fun _ => .error (.exc "boom")) 3).2 (.exc "boom") rfl rfl⟩⟩

/-- C8: when the wrapped function raises a `BaseException` that is not an
`Exception` instance, `result(f)` lets it propagate to the caller instead
of converting it to an `Error` value. -/
theorem result_passes_base_exceptions (A B : Type) (f : A → Except BaseExc B)
    (x : A) (e : BaseExc) (h : f x = .error e) (hne : e.isException = false) :
    result f x = .error e := by
  simp [result, h, hne]

/-- Witness for C8 at a concrete input: a function raising
`KeyboardInterrupt`. -/
theorem result_passes_base_exceptions_witness :
    (fun _ : Nat => (Except.error BaseExc.keyboardInterrupt : Except BaseExc Nat)) 0
        = .error .keyboardInterrupt ∧
    BaseExc.keyboardInterrupt.isException = false ∧
    result (fun _ : Nat => (.error .keyboardInterrupt : Except BaseExc Nat)) 0
        = .error .keyboardInterrupt :=
  ⟨rfl, rfl,
   result_passes_base_exceptions Nat Nat (fun _ => .error .keyboardInterrupt) 0
     .keyboardInterrupt rfl rfl⟩


/-- Modelled from the spec: `sequence_` of `pfun/monad.py` is not in the
source snapshot; result.py line 168 defines `sequence(iterable)` as
`sequence_(Ok, iterable)`.  Spec section 4.1: `sequence_` turns an ordered
sequence of containers into a container of the sequence, built solely from
`and_then`, `map` and the `wrap` constructor (here fixed to `Ok`),
short-circuiting at the first failure-like element left to right and
preserving element order in the success case. -/
def Result.sequence : List (Result A B) → Result (List A) B
  | [] => .Ok []
  | r :: rs => r.and_then fun a => (Result.sequence rs).map fun xs => a :: xs

/-- C6: `sequence` of an all-`Ok` list is `Ok` of the payloads in their
original order, and `sequence` of a list whose first non-`Ok` element is
`Error e` is `Error e` (the first `Error` scanning left to right),
whatever follows it. -/
theorem sequence_ok_or_first_error (A B : Type) (l : List (Result A B)) :
    (∀ (as : List A), l = as.map Result.Ok → Result.sequence l = .Ok as) ∧
    (∀ (pre : List A) (e : B) (suf : List (Result A B)),
      l = pre.map Result.Ok ++ .Error e :: suf → Result.sequence l = .Error e) := by
  constructor
  · intro as h
    subst h
    induction as with
    | nil => rfl
    | cons a as ih =>
        simp only [List.map_cons, Result.sequence, Result.and_then, ih, Result.map]
  · intro pre e suf h
    subst h
    induction pre with
    | nil => rfl
    | cons a pre ih =>
        simp only [List.map_cons, List.cons_append, Result.sequence,
          Result.and_then, List.append_eq, ih, Result.map]

/-- Witness for C6 at the spec's concrete examples:
`sequence [Ok 1, Ok 2, Ok 3] = Ok [1, 2, 3]` and
`sequence [Ok 1, Error "e", Ok 3] = Error "e"`. -/
theorem sequence_ok_or_first_error_witness :
    (([Result.Ok 1, .Ok 2, .Ok 3] : List (Result Nat String))
        = ([1, 2, 3] : List Nat).map Result.Ok ∧
      Result.sequence ([Result.Ok 1, .Ok 2, .Ok 3] : List (Result Nat String))
        = .Ok [1, 2, 3]) ∧
    (([Result.Ok 1, .Error "e", .Ok 3] : List (Result Nat String))
        = ([1] : List Nat).map Result.Ok ++ .Error "e" :: [.Ok 3] ∧
      Result.sequence ([Result.Ok 1, .Error "e", .Ok 3] : List (Result Nat String))
        = .Error "e") :=
  ⟨⟨rfl, (sequence_ok_or_first_error Nat String
      ([Result.Ok 1, .Ok 2, .Ok 3] : List (Result Nat String))).1 [1, 2, 3] rfl⟩,
   ⟨rfl, (sequence_ok_or_first_error Nat String
      [Result.Ok 1, .Error "e", .Ok 3]).2 [1] "e" [.Ok 3] rfl⟩⟩

/-- A universal model of Python runtime objects, used for the dynamic
`__eq__` claims: base values (ints and strings) plus `Ok` and `Error`
instances whose payload is any object. -/
inductive PyObj : Type where
  | int : Int → PyObj
  | str : String → PyObj
  | ok : PyObj → PyObj
  | error : PyObj → PyObj
deriving Repr, DecidableEq

/-- Python `==` on these objects.  `Ok.__eq__` (result.py line 122) is
`isinstance(other, Ok) and self.a == other.a`; `Error.__eq__` (line 155)
is `isinstance(other, Error) and other.b == self.b` (note the operand
order in the source).  Both return a `bool` for every comparand, never
`NotImplemented`, so comparison of a `Result` on the left never defers to
the right operand; comparing a base value on the left with a `Result` on
the right falls through to the reflected `Result.__eq__`, whose
`isinstance` test fails. -/
def pyEq : PyObj → PyObj → Bool
  | .int m, .int n => m == n
  | .str s, .str t => s == t
  | .ok x, .ok y => pyEq x y
  | .error x, .error y => pyEq y x
  | _, _ => false
termination_by x y => sizeOf x + sizeOf y

/-- `isinstance(o, Ok)`. -/
def PyObj.isOk : PyObj → Bool
  | .ok _ => true
  | _ => false

/-- `isinstance(o, Error)`. -/
def PyObj.isError : PyObj → Bool
  | .error _ => true
  | _ => false

theorem pyEq_symm (x y : PyObj) : pyEq x y = pyEq y x := by
  induction x generalizing y with
  | int m =>
      cases y with
      | int n =>
          rw [pyEq, pyEq]
          simp [beq_iff_eq, eq_comm]
      | str t => simp [pyEq]
      | ok z => simp [pyEq]
      | error z => simp [pyEq]
  | str s =>
      cases y with
      | int n => simp [pyEq]
      | str t =>
          rw [pyEq, pyEq]
          simp [beq_iff_eq, eq_comm]
      | ok z => simp [pyEq]
      | error z => simp [pyEq]
  | ok x ih =>
      cases y with
      | int n => simp [pyEq]
      | str t => simp [pyEq]
      | ok z =>
          rw [pyEq, pyEq]
          exact ih z
      | error z => simp [pyEq]
  | error x ih =>
      cases y with
      | int n => simp [pyEq]
      | str t => simp [pyEq]
      | ok z => simp [pyEq]
      | error z =>
          rw [pyEq, pyEq]
          exact (ih z).symm

theorem pyEq_nested_self (x : PyObj) :
    pyEq (.ok x) x = false ∧ pyEq x (.ok x) = false ∧
    pyEq (.error x) x = false ∧ pyEq x (.error x) = false := by
  induction x with
  | int m => simp [pyEq]
  | str s => simp [pyEq]
  | ok y ih =>
      obtain ⟨h1, h2, h3, h4⟩ := ih
      refine ⟨?_, ?_, ?_, ?_⟩
      · rw [pyEq]; exact h1
      · rw [pyEq]; exact h2
      · simp [pyEq]
      · simp [pyEq]
  | error y ih =>
      obtain ⟨h1, h2, h3, h4⟩ := ih
      refine ⟨?_, ?_, ?_, ?_⟩
      · simp [pyEq]
      · simp [pyEq]
      · rw [pyEq]; exact h4
      · rw [pyEq]; exact h3

/-- C7: equality on `Result` objects is structural and variant-sensitive:
`Ok x == Ok y` holds exactly when `x == y`, `Error x == Error y` holds
exactly when `x == y`, and `Ok x == Error x` is false in both comparison
directions, for every payload. -/
theorem eq_structural_variant_sensitive (x y : PyObj) :
    pyEq (.ok x) (.ok y) = pyEq x y ∧
    pyEq (.error x) (.error y) = pyEq x y ∧
    pyEq (.ok x) (.error x) = false ∧
    pyEq (.error x) (.ok x) = false := by
  refine ⟨by rw [pyEq], ?_, by simp [pyEq], by simp [pyEq]⟩
  rw [pyEq]
  exact pyEq_symm y x

/-- C10: `__eq__` on a `Result` object is total and boolean-valued against
every comparand: an `Ok` compared with anything that is not an `Ok`, and
an `Error` compared with anything that is not an `Error`, evaluates to
`false` (never an exception, never deferred); in particular `Ok x == x`
and `Error x == x` are false for every object `x`, in both directions. -/
theorem eq_total_boolean (x o : PyObj) :
    (o.isOk = false → pyEq (.ok x) o = false) ∧
    (o.isError = false → pyEq (.error x) o = false) ∧
    pyEq (.ok x) x = false ∧ pyEq x (.ok x) = false ∧
    pyEq (.error x) x = false ∧ pyEq x (.error x) = false := by
  obtain ⟨h1, h2, h3, h4⟩ := pyEq_nested_self x
  refine ⟨?_, ?_, h1, h2, h3, h4⟩
  · intro h
    cases o <;> simp_all [pyEq, PyObj.isOk]
  · intro h
    cases o <;> simp_all [pyEq, PyObj.isError]

/-- Witness for C10 at a concrete input: comparing with the integer 5. -/
theorem eq_total_boolean_witness :
    (PyObj.int 5).isOk = false ∧ (PyObj.int 5).isError = false ∧
    pyEq (.ok (.int 5)) (.int 5) = false ∧
    pyEq (.error (.int 5)) (.int 5) = false :=
  ⟨rfl, rfl, (eq_total_boolean (.int 5) (.int 5)).1 rfl,
   (eq_total_boolean (.int 5) (.int 5)).2.1 rfl⟩
